import Mathlib

/-!
Verification of the session-persisted timer subsystem of the repository
(`static/js/timer-state.js`): `TimerStateManager` (elapsed-time tracking,
session-storage persistence, pause/resume/stop, listener notification) and
`GlobalTimerManager` (the per-key registry), as a shallow embedding.

Modelling conventions:
* JavaScript numbers holding timestamps/durations are modelled as `Int`
  (all arithmetic in the source is integral); `Math.floor` of a quotient is
  `Int.fdiv`, the JS `%` remainder is `Int.tmod`.
* `Date.now()` is an explicit `now : Int` argument at each entry point.
* `sessionStorage` is modelled as two association lists, one for the
  `timer_state_*` keys and one for the `session_start_*` keys (each manager
  owns exactly one key in each namespace), plus two fault flags:
  `readThrows` (`getItem` throws, e.g. storage unavailable) and
  `writeThrows` (`setItem` throws, e.g. quota exceeded). `removeItem` is
  modelled as non-throwing.
* The string stored under a `timer_state_*` key is modelled by `StateVal`:
  either the serialization of a persisted record (`JSON.parse` succeeds and
  yields the record) or a corrupt string (`JSON.parse` throws). The string
  under a `session_start_*` key is modelled by `MarkVal`: either a numeric
  string (`parseInt` yields its value) or a non-numeric one (`parseInt`
  yields `NaN`, so the validity comparison `now - NaN < 3600000` is false).
* Exceptions are `Except Unit`.
-/

/-- The in-memory `this.state` object of `TimerStateManager`.
`startTime = none` models `null`.  (The `lastUpdated` field that a restored
state object incidentally carries via object spread is never read and is
omitted.) -/
structure TimerState where
  startTime : Option Int
  elapsedTime : Int
  isPaused : Bool
  isActive : Bool
deriving Repr, DecidableEq

/-- The record serialized by `saveState`:
`{elapsedTime, isPaused, lastUpdated}`. -/
structure PersistedRecord where
  elapsedTime : Int
  isPaused : Bool
  lastUpdated : Int
deriving Repr, DecidableEq

/-- A string stored under a `timer_state_*` key, as seen by `JSON.parse`. -/
inductive StateVal where
  | record (r : PersistedRecord)
  | corrupt
deriving Repr, DecidableEq

/-- A string stored under a `session_start_*` key, as seen by `parseInt`. -/
inductive MarkVal where
  | num (n : Int)
  | nonNumeric
deriving Repr, DecidableEq

def lookupKey {α : Type} (l : List (String × α)) (k : String) : Option α :=
  (l.find? (fun p => p.1 == k)).map (fun p => p.2)

def eraseKey {α : Type} (l : List (String × α)) (k : String) : List (String × α) :=
  l.filter (fun p => p.1 != k)

/-- `setItem` overwrite semantics on an association list. -/
def setKey {α : Type} (l : List (String × α)) (k : String) (v : α) : List (String × α) :=
  (k, v) :: eraseKey l k

/-- The `sessionStorage` visible to the timer subsystem. -/
structure Storage where
  stateRecs : List (String × StateVal)
  sessionMarks : List (String × MarkVal)
  readThrows : Bool
  writeThrows : Bool
deriving Repr, DecidableEq

namespace TimerState

/-- `getElapsedTime()`: `if (!this.state.isActive || !this.state.startTime)
return 0; return Date.now() - this.state.startTime;`.
JS truthiness: `!startTime` is true when `startTime` is `null` or `0`. -/
def getElapsedTime (s : TimerState) (now : Int) : Int :=
  if s.isActive = false then 0
  else
    match s.startTime with
    | none => 0
    | some t0 => if t0 = 0 then 0 else now - t0

/-- `pause()`: no-op if already paused; otherwise set `isPaused` and snapshot
`elapsedTime := getElapsedTime()` (the subsequent `notifyListeners` call does
not change the state). -/
def pause (s : TimerState) (now : Int) : TimerState :=
  if s.isPaused then s
  else { s with isPaused := true, elapsedTime := s.getElapsedTime now }

/-- `resume()`: no-op if not paused; otherwise `startTime := now - elapsedTime`
and clear `isPaused`. -/
def resume (s : TimerState) (now : Int) : TimerState :=
  if s.isPaused = false then s
  else { s with startTime := some (now - s.elapsedTime), isPaused := false }

end TimerState

/-- JS `String.prototype.padStart(n, c)`. -/
def padStart (s : String) (n : Nat) (c : Char) : String :=
  if n ≤ s.length then s
  else String.mk (List.replicate (n - s.length) c) ++ s

/-- The body of `getFormattedTime()` applied to an elapsed-time value `e`:
`elapsed = Math.floor(e / 1000); minutes = Math.floor(elapsed / 60);
seconds = elapsed % 60; minutes + ":" + seconds.toString().padStart(2,'0')`. -/
def formatElapsed (e : Int) : String :=
  let elapsed := Int.fdiv e 1000
  let minutes := Int.fdiv elapsed 60
  let seconds := Int.tmod elapsed 60
  toString minutes ++ ":" ++ padStart (toString seconds) 2 '0'

/-- `getFormattedTime()` reads `getElapsedTime()` and formats it. -/
def TimerState.getFormattedTime (s : TimerState) (now : Int) : String :=
  formatElapsed (s.getElapsedTime now)

/-- A `TimerStateManager` instance.  `autoSaveOn` models
`autoSaveInterval !== null` (the periodic auto-save handle). -/
structure TimerStateManager where
  candidateId : String
  questionIndex : Nat
  state : TimerState
  autoSaveOn : Bool
deriving Repr, DecidableEq

def storageKeyOf (cid : String) (q : Nat) : String :=
  "timer_state_" ++ cid ++ "_" ++ toString q

def sessionKeyOf (cid : String) (q : Nat) : String :=
  "session_start_" ++ cid ++ "_" ++ toString q

namespace TimerStateManager

/-- `this.storageKey` (computed once in the constructor from the two ids,
never reassigned). -/
def storageKey (m : TimerStateManager) : String :=
  storageKeyOf m.candidateId m.questionIndex

/-- `this.sessionKey`. -/
def sessionKey (m : TimerStateManager) : String :=
  sessionKeyOf m.candidateId m.questionIndex

/-- The `try { ... }` block of `loadState`: reads both keys, parses, and on a
valid (< 1 hour old) session produces the restored state
`{...parsedState, startTime: now - parsedState.elapsedTime, isActive: true}`.
`.error` is a thrown exception (caught by `loadState`); `.ok none` means the
block ran to completion without restoring. -/
def loadAttempt (m : TimerStateManager) (st : Storage) (now : Int) :
    Except Unit (Option TimerState) :=
  if st.readThrows then .error ()
  else
    match lookupKey st.stateRecs m.storageKey, lookupKey st.sessionMarks m.sessionKey with
    | some sv, some mv =>
      match sv with
      | .corrupt => .error ()
      | .record r =>
        match mv with
        | .nonNumeric => .ok none
        | .num t0 =>
          if now - t0 < 3600000 then
            .ok (some { startTime := some (now - r.elapsedTime),
                        elapsedTime := r.elapsedTime,
                        isPaused := r.isPaused,
                        isActive := true })
          else .ok none
    | _, _ => .ok none

/-- `loadState()`: runs the try block; on restore returns `true`.  Otherwise
(fall-through or caught exception) starts fresh: `startTime := now`,
`isActive := true`, and writes the fresh session-start marker.  That
`sessionStorage.setItem` sits outside the `try`/`catch`, so when the storage
write throws the exception escapes `loadState`. -/
def loadState (m : TimerStateManager) (st : Storage) (now : Int) :
    Except Unit (TimerStateManager × Storage × Bool) :=
  match m.loadAttempt st now with
  | .ok (some s) => .ok ({ m with state := s }, st, true)
  | _ =>
    let s := { m.state with startTime := some now, isActive := true }
    if st.writeThrows then .error ()
    else
      .ok ({ m with state := s },
           { st with sessionMarks := setKey st.sessionMarks m.sessionKey (.num now) },
           false)

/-- `new TimerStateManager(candidateId, questionIndex)`: initialize the state
object and call `loadState()`.  An exception escaping `loadState` escapes the
constructor. -/
def construct (cid : String) (q : Nat) (st : Storage) (now : Int) :
    Except Unit (TimerStateManager × Storage) :=
  let m0 : TimerStateManager :=
    { candidateId := cid, questionIndex := q,
      state := { startTime := none, elapsedTime := 0, isPaused := false, isActive := false },
      autoSaveOn := false }
  match m0.loadState st now with
  | .error e => .error e
  | .ok (m, st2, _) => .ok (m, st2)

/-- `saveState()`: serialize `{elapsedTime: getElapsedTime(), isPaused,
lastUpdated: now}` under the state key; a throwing `setItem` is caught and
suppressed (storage left unchanged). -/
def saveState (m : TimerStateManager) (st : Storage) (now : Int) : Storage :=
  if st.writeThrows then st
  else
    { st with
      stateRecs := setKey st.stateRecs m.storageKey
        (.record { elapsedTime := m.state.getElapsedTime now,
                   isPaused := m.state.isPaused,
                   lastUpdated := now }) }

/-- `stop()`: `isActive := false`, `isPaused := true`, remove both storage
entries, cancel the auto-save interval (the `notifyListeners` call does not
change the state). -/
def stop (m : TimerStateManager) (st : Storage) : TimerStateManager × Storage :=
  ({ m with
     state := { m.state with isActive := false, isPaused := true },
     autoSaveOn := false },
   { st with
     stateRecs := eraseKey st.stateRecs m.storageKey,
     sessionMarks := eraseKey st.sessionMarks m.sessionKey })

/-- `startAutoSave()`: (re)arms the periodic `saveState` interval; modelled by
the `autoSaveOn` flag. -/
def startAutoSave (m : TimerStateManager) : TimerStateManager :=
  { m with autoSaveOn := true }

end TimerStateManager

/-- A subscriber callback; its application may throw. -/
def Listener : Type := TimerState → Except Unit Unit

/-- Whether a listener invocation returned normally. -/
def listenerOk (r : Except Unit Unit) : Bool :=
  match r with
  | .ok _ => true
  | .error _ => false

/-- `notifyListeners()`: invoke each listener with the current state; each
invocation sits in its own `try`/`catch`, so a throwing listener is recorded
as a failure instead of rethrowing (without the `catch`, the `.error` of
`l s` would short-circuit the whole loop and propagate to the caller).
Returns the per-listener outcomes. -/
def notifyListeners : List Listener → TimerState → Except Unit (List Bool)
  | [], _ => .ok []
  | l :: rest, s =>
    match (match l s with
           | .ok _ => Except.ok true
           | .error _ => Except.ok false : Except Unit Bool) with
    | .error e => .error e
    | .ok b =>
      match notifyListeners rest s with
      | .error e => .error e
      | .ok bs => .ok (b :: bs)

/-- The registry: `activeTimers : Map<string, TimerStateManager>`. -/
structure GlobalTimerManager where
  activeTimers : List (String × TimerStateManager)
deriving Repr, DecidableEq

/-- The registry key `` `${candidateId}_${questionIndex}` ``. -/
def regKey (cid : String) (q : Nat) : String :=
  cid ++ "_" ++ toString q

namespace GlobalTimerManager

/-- `getTimer()`: return the registered manager for the key, or construct one,
start its auto-save, register it and return it. -/
def getTimer (g : GlobalTimerManager) (st : Storage) (cid : String) (q : Nat)
    (now : Int) : Except Unit (TimerStateManager × GlobalTimerManager × Storage) :=
  match lookupKey g.activeTimers (regKey cid q) with
  | some m => .ok (m, g, st)
  | none =>
    match TimerStateManager.construct cid q st now with
    | .error e => .error e
    | .ok (m, st2) =>
      let m2 := m.startAutoSave
      .ok (m2, ⟨setKey g.activeTimers (regKey cid q) m2⟩, st2)

/-- `cleanupTimer()`: if a manager is registered under the key, `stop()` it
and delete it from the registry; otherwise a no-op. -/
def cleanupTimer (g : GlobalTimerManager) (st : Storage) (cid : String) (q : Nat) :
    GlobalTimerManager × Storage :=
  match lookupKey g.activeTimers (regKey cid q) with
  | some m =>
    let p := m.stop st
    (⟨eraseKey g.activeTimers (regKey cid q)⟩, p.2)
  | none => (g, st)

end GlobalTimerManager

/-- `TimerUtils.getFormattedTime(candidateId, questionIndex)`: fetch (or
create) the timer via the registry and format its elapsed time. -/
def TimerUtils.getFormattedTime (g : GlobalTimerManager) (st : Storage)
    (cid : String) (q : Nat) (now : Int) :
    Except Unit (String × GlobalTimerManager × Storage) :=
  match GlobalTimerManager.getTimer g st cid q now with
  | .error e => .error e
  | .ok (t, g2, st2) => .ok (t.state.getFormattedTime now, g2, st2)

/-- One public state-mutating call on a live manager, with the clock value at
which it happens. -/
inductive TimerOp where
  | pauseAt (now : Int)
  | resumeAt (now : Int)
  | stopTimer
  | saveAt (now : Int)
deriving Repr, DecidableEq

def applyOp (m : TimerStateManager) (st : Storage) : TimerOp → TimerStateManager × Storage
  | .pauseAt t => ({ m with state := m.state.pause t }, st)
  | .resumeAt t => ({ m with state := m.state.resume t }, st)
  | .stopTimer => m.stop st
  | .saveAt t => (m, m.saveState st t)

def applyOps : TimerStateManager → Storage → List TimerOp → TimerStateManager × Storage
  | m, st, [] => (m, st)
  | m, st, op :: rest => applyOps (applyOp m st op).1 (applyOp m st op).2 rest

/-- The precondition of the fresh-start claim: the persisted state record or
the session-start marker is missing or unparsable, or the session-start
timestamp `t0` has expired (`now - t0 >= 3_600_000`). -/
def freshRestoreBlocked (st : Storage) (cid : String) (q : Nat) (now : Int) : Prop :=
  lookupKey st.stateRecs (storageKeyOf cid q) = none
  ∨ lookupKey st.sessionMarks (sessionKeyOf cid q) = none
  ∨ lookupKey st.stateRecs (storageKeyOf cid q) = some StateVal.corrupt
  ∨ lookupKey st.sessionMarks (sessionKeyOf cid q) = some MarkVal.nonNumeric
  ∨ (∃ t0, lookupKey st.sessionMarks (sessionKeyOf cid q) = some (MarkVal.num t0)
        ∧ 3600000 ≤ now - t0)

/-! ### Association-list lemmas for the storage and registry maps -/

theorem lookupKey_eraseKey_self {α : Type} (l : List (String × α)) (k : String) :
    lookupKey (eraseKey l k) k = none := by
  induction l with
  | nil => rfl
  | cons p rest ih =>
    rcases p with ⟨a, b⟩
    by_cases h : a = k
    · simp only [eraseKey, List.filter_cons] at ih ⊢
      simp [h, ih]
    · simp only [eraseKey, List.filter_cons] at ih ⊢
      simp [lookupKey, List.find?, h, ih]

theorem lookupKey_setKey_self {α : Type} (l : List (String × α)) (k : String) (v : α) :
    lookupKey (setKey l k v) k = some v := by
  simp [setKey, lookupKey, List.find?]

theorem eraseKey_eraseKey_self {α : Type} (l : List (String × α)) (k : String) :
    eraseKey (eraseKey l k) k = eraseKey l k := by
  induction l with
  | nil => rfl
  | cons p rest ih =>
    rcases p with ⟨a, b⟩
    by_cases h : a = k
    · simp only [eraseKey, List.filter_cons] at ih ⊢
      simp [h, ih]
    · simp only [eraseKey, List.filter_cons] at ih ⊢
      simp [h, ih]

theorem getElapsedTime_of_inactive (s : TimerState) (now : Int)
    (h : s.isActive = false) : s.getElapsedTime now = 0 := by
  simp [TimerState.getElapsedTime, h]

/-! ### Post-`stop` operation sequences -/

theorem applyOp_preserves_inactive (m : TimerStateManager) (st : Storage)
    (op : TimerOp) (h : m.state.isActive = false) :
    ((applyOp m st op).1).state.isActive = false := by
  cases op with
  | pauseAt t =>
    simp only [applyOp, TimerState.pause]
    split <;> simp [h]
  | resumeAt t =>
    simp only [applyOp, TimerState.resume]
    split <;> simp [h]
  | stopTimer => simp [applyOp, TimerStateManager.stop]
  | saveAt t => simpa [applyOp] using h

theorem applyOps_preserves_inactive (ops : List TimerOp) (m : TimerStateManager)
    (st : Storage) (h : m.state.isActive = false) :
    ((applyOps m st ops).1).state.isActive = false := by
  induction ops generalizing m st with
  | nil => exact h
  | cons op rest ih =>
    exact ih _ _ (applyOp_preserves_inactive m st op h)

/-! ### Claims -/

/-- C1: the claim states that after `pause()` every subsequent
`getElapsedTime()` call returns the same frozen value however far the clock
advances.  The source's `getElapsedTime` ignores `isPaused` and keeps
returning the live `now - startTime`: for a running manager with
`startTime = 100`, pausing at `t = 250` snapshots `150` into the frozen
`elapsedTime` field, yet `getElapsedTime` read at `t = 400` returns `300`,
not the frozen `150`. -/
theorem pause_does_not_freeze_getElapsedTime :
    TimerState.getElapsedTime (TimerState.pause ⟨some 100, 0, false, true⟩ 250) 250 = 150
    ∧ (TimerState.pause ⟨some 100, 0, false, true⟩ 250).elapsedTime = 150
    ∧ (TimerState.pause ⟨some 100, 0, false, true⟩ 250).isPaused = true
    ∧ TimerState.getElapsedTime (TimerState.pause ⟨some 100, 0, false, true⟩ 250) 400 = 300
    ∧ (300 : Int) ≠ 150 := by
  refine ⟨rfl, rfl, rfl, rfl, by decide⟩

/-- C5: after `stop()`, `getElapsedTime()` is `0`, and it stays `0` under
every subsequent sequence of `pause`/`resume`/`saveState`/`stop` calls:
none of those operations can set `isActive` back to `true`, and the
`isActive` guard forces the elapsed-time read to `0`. -/
theorem stop_then_ops_elapsed_zero (m : TimerStateManager) (st : Storage)
    (ops : List TimerOp) (t u : Int) :
    TimerState.getElapsedTime ((m.stop st).1).state t = 0
    ∧ ((applyOps (m.stop st).1 (m.stop st).2 ops).1).state.isActive = false
    ∧ TimerState.getElapsedTime
        ((applyOps (m.stop st).1 (m.stop st).2 ops).1).state u = 0 := by
  have hstop : ((m.stop st).1).state.isActive = false := rfl
  have hops := applyOps_preserves_inactive ops (m.stop st).1 (m.stop st).2 hstop
  exact ⟨getElapsedTime_of_inactive _ t hstop, hops,
         getElapsedTime_of_inactive _ u hops⟩

/-- C6: `stop()` is idempotent: a second `stop()` produces exactly the same
manager and storage as the first (both persisted entries absent,
`isActive = false`, `isPaused = true`, auto-save canceled), and (being a
total function of the model) it throws nothing. -/
theorem stop_idempotent (m : TimerStateManager) (st : Storage) :
    TimerStateManager.stop ((m.stop st).1) ((m.stop st).2) = m.stop st
    ∧ ((m.stop st).1).state.isActive = false
    ∧ ((m.stop st).1).state.isPaused = true
    ∧ ((m.stop st).1).autoSaveOn = false
    ∧ lookupKey ((m.stop st).2).stateRecs m.storageKey = none
    ∧ lookupKey ((m.stop st).2).sessionMarks m.sessionKey = none := by
  refine ⟨?_, rfl, rfl, rfl, ?_, ?_⟩
  · cases m with
    | mk cid q s auto =>
      cases s with
      | mk a b c d =>
        cases st with
        | mk recs marks rt wt =>
          simp [TimerStateManager.stop, TimerStateManager.storageKey,
                TimerStateManager.sessionKey, eraseKey_eraseKey_self]
  · exact lookupKey_eraseKey_self _ _
  · exact lookupKey_eraseKey_self _ _

/-- C8: `notifyListeners` invokes every registered listener, in order, with
the current state; a throwing listener's exception is caught and recorded
per-listener, so it neither skips the remaining listeners nor propagates to
the caller (the result is always `.ok`, with one outcome per listener). -/
theorem notifyListeners_no_propagation (ls : List Listener) (s : TimerState) :
    notifyListeners ls s = .ok (ls.map (fun l => listenerOk (l s))) := by
  induction ls with
  | nil => rfl
  | cons l rest ih =>
    cases h : l s with
    | ok u => simp [notifyListeners, h, ih, listenerOk]
    | error e => simp [notifyListeners, h, ih, listenerOk]

/-- C7 (amended): for a running, non-paused manager, `pause()` at `t1`
followed by `resume()` at `t2` restores the snapshotted elapsed value,
provided the recomputed `startTime = t2 - snapshot` is nonzero (a zero
`startTime` is falsy in the source's `!startTime` guard): immediately after
`resume()` the elapsed time equals the pause-time snapshot, and thereafter it
grows as `snapshot + (t - t2)`. -/
theorem pause_resume_roundtrip (s : TimerState) (t1 t2 : Int)
    (ha : s.isActive = true) (hp : s.isPaused = false)
    (hnz : t2 - s.getElapsedTime t1 ≠ 0) :
    TimerState.getElapsedTime (TimerState.resume (TimerState.pause s t1) t2) t2
        = s.getElapsedTime t1
    ∧ (TimerState.resume (TimerState.pause s t1) t2).isPaused = false
    ∧ (TimerState.resume (TimerState.pause s t1) t2).isActive = true
    ∧ ∀ t : Int,
        TimerState.getElapsedTime (TimerState.resume (TimerState.pause s t1) t2) t
          = s.getElapsedTime t1 + (t - t2) := by
  have hres : TimerState.resume (TimerState.pause s t1) t2
      = { s with startTime := some (t2 - s.getElapsedTime t1),
                 elapsedTime := s.getElapsedTime t1, isPaused := false } := by
    simp [TimerState.pause, TimerState.resume, hp]
  have helapsed : ∀ t : Int,
      TimerState.getElapsedTime (TimerState.resume (TimerState.pause s t1) t2) t
        = s.getElapsedTime t1 + (t - t2) := by
    intro t
    rw [hres]
    set e := s.getElapsedTime t1 with he
    simp only [TimerState.getElapsedTime, ha]
    simp only [Bool.true_eq_false, if_false, reduceIte, hnz]
    ring
  refine ⟨?_, by simp [hres], by simp [hres, ha], helapsed⟩
  have h2 := helapsed t2
  omega

/-- C7 counterexample to the claim as stated: a running manager with
`startTime = -10` (reachable by restoring a persisted record whose
`elapsedTime` exceeds the current clock), paused at `t1 = 0` (snapshot `10`),
resumed at the later instant `t2 = 10`: `resume` recomputes
`startTime = 10 - 10 = 0`, which the getter's `!startTime` truthiness guard
treats as unset, so `getElapsedTime` right after `resume()` returns `0`, not
the snapshotted `10`. -/
theorem pause_resume_zero_startTime_cex :
    TimerState.getElapsedTime ⟨some (-10), 0, false, true⟩ 0 = 10
    ∧ (TimerState.pause ⟨some (-10), 0, false, true⟩ 0).elapsedTime = 10
    ∧ (TimerState.resume (TimerState.pause ⟨some (-10), 0, false, true⟩ 0) 10).startTime = some 0
    ∧ TimerState.getElapsedTime
        (TimerState.resume (TimerState.pause ⟨some (-10), 0, false, true⟩ 0) 10) 10 = 0
    ∧ (0 : Int) ≠ 10 := by
  refine ⟨rfl, rfl, rfl, rfl, by decide⟩

/-- Witness for C7: a running manager with `startTime = 100`, paused at
`t1 = 250` (snapshot `150`), resumed at `t2 = 1000`: elapsed right after
resume is back to the snapshot, and at `t = 1600` it is `snapshot + 600`. -/
theorem pause_resume_roundtrip_witness :
    TimerState.getElapsedTime
        (TimerState.resume (TimerState.pause ⟨some 100, 0, false, true⟩ 250) 1000) 1000
      = TimerState.getElapsedTime ⟨some 100, 0, false, true⟩ 250
    ∧ TimerState.getElapsedTime
        (TimerState.resume (TimerState.pause ⟨some 100, 0, false, true⟩ 250) 1000) 1600
      = TimerState.getElapsedTime ⟨some 100, 0, false, true⟩ 250 + (1600 - 1000)
    ∧ TimerState.getElapsedTime ⟨some 100, 0, false, true⟩ 250 = 150 :=
  ⟨(pause_resume_roundtrip ⟨some 100, 0, false, true⟩ 250 1000 rfl rfl (by decide)).1,
   (pause_resume_roundtrip ⟨some 100, 0, false, true⟩ 250 1000 rfl rfl (by decide)).2.2.2 1600,
   by decide⟩

/-! ### Formatting lemmas (C9) -/

theorem int_fdiv_cast1000 (m : Nat) :
    Int.fdiv (m : Int) (1000 : Int) = ((m / 1000 : Nat) : Int) := by
  cases m with
  | zero => decide
  | succ m => rfl

theorem int_fdiv_cast60 (m : Nat) :
    Int.fdiv (m : Int) (60 : Int) = ((m / 60 : Nat) : Int) := by
  cases m with
  | zero => decide
  | succ m => rfl

theorem int_fdiv_cast60000 (m : Nat) :
    Int.fdiv (m : Int) (60000 : Int) = ((m / 60000 : Nat) : Int) := by
  cases m with
  | zero => decide
  | succ m => rfl

theorem int_tmod_cast60 (m : Nat) :
    Int.tmod (m : Int) (60 : Int) = ((m % 60 : Nat) : Int) := rfl

theorem int_emod_cast60 (m : Nat) :
    Int.emod (m : Int) (60 : Int) = ((m % 60 : Nat) : Int) := rfl

theorem padStart_toString_lt60 :
    ∀ s : Nat, s < 60 → (padStart (toString ((s : Nat) : Int)) 2 '0').length = 2 := by
  decide

/-- C9: for every nonnegative elapsed duration `e` (in ms), the formatted
string is the whole minutes `⌊e / 60000⌋` (not zero-padded), a colon, and
`⌊e / 1000⌋ mod 60` zero-padded to exactly two digits — whole-second
truncation. -/
theorem formatElapsed_minutes_colon_seconds (e : Int) (he : 0 ≤ e) :
    formatElapsed e
      = toString (Int.fdiv e 60000) ++ ":"
          ++ padStart (toString (Int.emod (Int.fdiv e 1000) 60)) 2 '0'
    ∧ (padStart (toString (Int.emod (Int.fdiv e 1000) 60)) 2 '0').length = 2 := by
  obtain ⟨n, rfl⟩ := Int.eq_ofNat_of_zero_le he
  have hdiv : n / 1000 / 60 = n / 60000 := by
    rw [Nat.div_div_eq_div_mul]
  constructor
  · simp only [formatElapsed, int_fdiv_cast1000, int_fdiv_cast60, int_fdiv_cast60000,
      int_tmod_cast60, int_emod_cast60, hdiv]
  · simp only [int_fdiv_cast1000, int_emod_cast60]
    exact padStart_toString_lt60 _ (Nat.mod_lt _ (by norm_num))

/-- Witness for C9 at `e = 65000` ms: the spec formula holds there, and the
resulting display string is `"1:05"`. -/
theorem formatElapsed_minutes_colon_seconds_witness :
    (formatElapsed 65000
       = toString (Int.fdiv (65000 : Int) 60000) ++ ":"
           ++ padStart (toString (Int.emod (Int.fdiv (65000 : Int) 1000) 60)) 2 '0'
     ∧ (padStart (toString (Int.emod (Int.fdiv (65000 : Int) 1000) 60)) 2 '0').length = 2)
    ∧ formatElapsed 65000 = "1:05" :=
  ⟨formatElapsed_minutes_colon_seconds 65000 (by decide), by decide⟩

/-! ### `loadState` / construction claims -/

theorem loadAttempt_blocked (m : TimerStateManager) (st : Storage) (now : Int)
    (h : freshRestoreBlocked st m.candidateId m.questionIndex now) :
    m.loadAttempt st now = Except.error () ∨ m.loadAttempt st now = Except.ok none := by
  unfold TimerStateManager.loadAttempt
  cases hr : st.readThrows with
  | true => simp
  | false =>
    simp only [Bool.false_eq_true, if_false]
    rcases hs : lookupKey st.stateRecs m.storageKey with _ | sv
    · rcases hm2 : lookupKey st.sessionMarks m.sessionKey with _ | mv <;> simp
    · rcases hm2 : lookupKey st.sessionMarks m.sessionKey with _ | mv
      · simp
      · cases sv with
        | corrupt => simp
        | record r =>
          cases mv with
          | nonNumeric => simp
          | num t0 =>
            rcases h with h1 | h2 | h3 | h4 | ⟨t1, hm3, hexp⟩
            · rw [TimerStateManager.storageKey] at hs
              rw [hs] at h1; exact absurd h1 (by simp)
            · rw [TimerStateManager.sessionKey] at hm2
              rw [hm2] at h2; exact absurd h2 (by simp)
            · rw [TimerStateManager.storageKey] at hs
              rw [hs] at h3; exact absurd h3 (by simp)
            · rw [TimerStateManager.sessionKey] at hm2
              rw [hm2] at h4; exact absurd h4 (by simp)
            · rw [TimerStateManager.sessionKey] at hm2
              rw [hm2] at hm3
              have ht : t0 = t1 := by simpa using hm3
              subst ht
              have hlt : ¬ (now - t0 < 3600000) := by omega
              simp [hlt]

theorem loadAttempt_restore_shape (m : TimerStateManager) (st : Storage) (now : Int)
    (s : TimerState) (h : m.loadAttempt st now = Except.ok (some s)) :
    s.isActive = true ∧ s.startTime.isSome = true := by
  unfold TimerStateManager.loadAttempt at h
  cases hr : st.readThrows with
  | true => rw [hr] at h; simp at h
  | false =>
    rw [hr] at h
    simp only [Bool.false_eq_true, if_false] at h
    rcases hs : lookupKey st.stateRecs m.storageKey with _ | sv <;> rw [hs] at h
    · simp at h
    · rcases hm2 : lookupKey st.sessionMarks m.sessionKey with _ | mv <;> rw [hm2] at h
      · simp at h
      · cases sv with
        | corrupt => simp at h
        | record r =>
          cases mv with
          | nonNumeric => simp at h
          | num t0 =>
            by_cases hwin : now - t0 < 3600000
            · simp only [hwin, if_true] at h
              have hsEq : s = { startTime := some (now - r.elapsedTime),
                                elapsedTime := r.elapsedTime,
                                isPaused := r.isPaused, isActive := true } := by
                simpa using h.symm
              subst hsEq
              exact ⟨rfl, rfl⟩
            · simp [hwin] at h

/-- C2 (amended): storage read and parse failures never escape construction:
for every storage content whose `setItem` does not throw, the constructor
returns normally with the manager in a valid running state (`isActive = true`
and `startTime` set).  (The claim's stronger form — that construction also
completes when the storage API throws on writes — fails; see the
counterexample below.) -/
theorem construct_survives_read_and_parse_failures (st : Storage) (cid : String)
    (q : Nat) (now : Int) (hw : st.writeThrows = false) :
    ∃ p : TimerStateManager × Storage,
      TimerStateManager.construct cid q st now = Except.ok p
      ∧ p.1.state.isActive = true ∧ p.1.state.startTime.isSome = true := by
  unfold TimerStateManager.construct TimerStateManager.loadState
  dsimp only
  rcases hatt : TimerStateManager.loadAttempt
      { candidateId := cid, questionIndex := q,
        state := { startTime := none, elapsedTime := 0, isPaused := false, isActive := false },
        autoSaveOn := false } st now with e | os
  · refine ⟨({ candidateId := cid, questionIndex := q,
               state := { startTime := some now, elapsedTime := 0,
                          isPaused := false, isActive := true },
               autoSaveOn := false },
             { st with sessionMarks := setKey st.sessionMarks (sessionKeyOf cid q)
                         (MarkVal.num now) }), ?_, rfl, rfl⟩
    simp [hw, TimerStateManager.sessionKey]
  · cases os with
    | none =>
      refine ⟨({ candidateId := cid, questionIndex := q,
                 state := { startTime := some now, elapsedTime := 0,
                            isPaused := false, isActive := true },
                 autoSaveOn := false },
               { st with sessionMarks := setKey st.sessionMarks (sessionKeyOf cid q)
                           (MarkVal.num now) }), ?_, rfl, rfl⟩
      simp [hw, TimerStateManager.sessionKey]
    | some s =>
      have hshape := loadAttempt_restore_shape _ _ _ _ hatt
      exact ⟨_, rfl, hshape.1, hshape.2⟩

/-- Witness for C2: with empty storage whose reads throw (`readThrows`),
construction still returns normally in a valid running state. -/
theorem construct_survives_read_and_parse_failures_witness :
    ∃ p : TimerStateManager × Storage,
      TimerStateManager.construct "c1" 0 ⟨[], [], true, false⟩ 5 = Except.ok p
      ∧ p.1.state.isActive = true ∧ p.1.state.startTime.isSome = true :=
  construct_survives_read_and_parse_failures ⟨[], [], true, false⟩ "c1" 0 5 rfl

/-- Counterexample for C2 as stated: with empty storage whose writes throw
(`writeThrows`, e.g. a quota error), the fresh-start marker write at the end
of `loadState` sits outside the `try`/`catch`, so the exception escapes and
construction does not complete. -/
theorem construct_write_throw_escapes_cex :
    TimerStateManager.construct "c1" 0 ⟨[], [], false, true⟩ 5 = Except.error () := rfl

theorem construct_fresh_eq (st : Storage) (cid : String) (q : Nat) (now : Int)
    (hw : st.writeThrows = false)
    (h : freshRestoreBlocked st cid q now) :
    TimerStateManager.construct cid q st now =
      .ok ({ candidateId := cid, questionIndex := q,
             state := { startTime := some now, elapsedTime := 0,
                        isPaused := false, isActive := true },
             autoSaveOn := false },
           { st with sessionMarks := setKey st.sessionMarks (sessionKeyOf cid q)
                       (MarkVal.num now) }) := by
  have hatt := loadAttempt_blocked
    { candidateId := cid, questionIndex := q,
      state := { startTime := none, elapsedTime := 0, isPaused := false, isActive := false },
      autoSaveOn := false } st now h
  unfold TimerStateManager.construct TimerStateManager.loadState
  dsimp only
  rcases hatt with he | hn
  · rw [he]
    simp [hw, TimerStateManager.sessionKey]
  · rw [hn]
    simp [hw, TimerStateManager.sessionKey]

theorem getElapsedTime_fresh (now : Int) :
    TimerState.getElapsedTime
      { startTime := some now, elapsedTime := 0, isPaused := false, isActive := true } now = 0 := by
  simp [TimerState.getElapsedTime, sub_self]

/-- C3: whenever the persisted record or session marker is missing or
unparsable, or the session-start timestamp has expired
(`now - t0 >= 3_600_000`), construction starts fresh: the stale data is not
applied (the state is exactly the fresh one), `startTime = now` (so the
elapsed time reads `0` at construction), `isActive = true`, and a fresh
session-start marker holding `now` is written to storage. -/
theorem loadState_fresh_start (st : Storage) (cid : String) (q : Nat) (now : Int)
    (hw : st.writeThrows = false)
    (h : freshRestoreBlocked st cid q now) :
    TimerStateManager.construct cid q st now =
      .ok ({ candidateId := cid, questionIndex := q,
             state := { startTime := some now, elapsedTime := 0,
                        isPaused := false, isActive := true },
             autoSaveOn := false },
           { st with sessionMarks := setKey st.sessionMarks (sessionKeyOf cid q)
                       (MarkVal.num now) })
    ∧ TimerState.getElapsedTime
        { startTime := some now, elapsedTime := 0, isPaused := false, isActive := true } now = 0
    ∧ lookupKey (setKey st.sessionMarks (sessionKeyOf cid q) (MarkVal.num now))
        (sessionKeyOf cid q) = some (MarkVal.num now) :=
  ⟨construct_fresh_eq st cid q now hw h, getElapsedTime_fresh now,
   lookupKey_setKey_self _ _ _⟩

/-- Witness for C3: empty storage (both entries missing), `now = 5`. -/
theorem loadState_fresh_start_witness :
    TimerStateManager.construct "c1" 0 ⟨[], [], false, false⟩ 5 =
      .ok ({ candidateId := "c1", questionIndex := 0,
             state := { startTime := some 5, elapsedTime := 0,
                        isPaused := false, isActive := true },
             autoSaveOn := false },
           ⟨[], setKey [] (sessionKeyOf "c1" 0) (MarkVal.num 5), false, false⟩)
    ∧ TimerState.getElapsedTime
        { startTime := some 5, elapsedTime := 0, isPaused := false, isActive := true } 5 = 0
    ∧ lookupKey (setKey [] (sessionKeyOf "c1" 0) (MarkVal.num 5))
        (sessionKeyOf "c1" 0) = some (MarkVal.num 5) :=
  loadState_fresh_start ⟨[], [], false, false⟩ "c1" 0 5 rfl (Or.inl rfl)

/-- C4 (amended): with a persisted record `r` and a session marker `t0` such
that `now - t0 < 3_600_000`, construction restores the session:
`startTime = now - r.elapsedTime`, `isActive = true`, the persisted
`isPaused` is preserved, storage is untouched, and — provided
`now - r.elapsedTime ≠ 0` (a zero `startTime` is falsy in the getter's
`!startTime` guard) — `getElapsedTime` at any time `t` is
`r.elapsedTime + (t - now)`, hence exactly `r.elapsedTime` at the
construction instant. -/
theorem restore_within_window (st : Storage) (cid : String) (q : Nat) (now t0 : Int)
    (r : PersistedRecord)
    (hread : st.readThrows = false)
    (hs : lookupKey st.stateRecs (storageKeyOf cid q) = some (StateVal.record r))
    (hm : lookupKey st.sessionMarks (sessionKeyOf cid q) = some (MarkVal.num t0))
    (hwin : now - t0 < 3600000)
    (hnz : now - r.elapsedTime ≠ 0) :
    TimerStateManager.construct cid q st now =
      .ok ({ candidateId := cid, questionIndex := q,
             state := { startTime := some (now - r.elapsedTime),
                        elapsedTime := r.elapsedTime,
                        isPaused := r.isPaused, isActive := true },
             autoSaveOn := false }, st)
    ∧ ∀ t : Int,
        TimerState.getElapsedTime
          { startTime := some (now - r.elapsedTime), elapsedTime := r.elapsedTime,
            isPaused := r.isPaused, isActive := true } t
          = r.elapsedTime + (t - now) := by
  constructor
  · have hatt : TimerStateManager.loadAttempt
        { candidateId := cid, questionIndex := q,
          state := { startTime := none, elapsedTime := 0, isPaused := false, isActive := false },
          autoSaveOn := false } st now
        = Except.ok (some { startTime := some (now - r.elapsedTime),
                            elapsedTime := r.elapsedTime,
                            isPaused := r.isPaused, isActive := true }) := by
      unfold TimerStateManager.loadAttempt
      simp [hread, TimerStateManager.storageKey, TimerStateManager.sessionKey, hs, hm, hwin]
    unfold TimerStateManager.construct TimerStateManager.loadState
    dsimp only
    rw [hatt]
  · intro t
    simp [TimerState.getElapsedTime, hnz]
    ring

/-- Witness for C4: record `elapsedTime = 120000` written `40` minutes into a
session whose marker is `t0 = 1000`; reconstructing at `now = 2000` (window
open) restores elapsed `120000` exactly at `now`, and `120000 + 500` at
`t = 2500`. -/
theorem restore_within_window_witness :
    TimerStateManager.construct "c1" 0
        ⟨[(storageKeyOf "c1" 0, StateVal.record ⟨120000, false, 0⟩)],
         [(sessionKeyOf "c1" 0, MarkVal.num 1000)], false, false⟩ 2000 =
      .ok ({ candidateId := "c1", questionIndex := 0,
             state := { startTime := some (2000 - 120000), elapsedTime := 120000,
                        isPaused := false, isActive := true },
             autoSaveOn := false },
           ⟨[(storageKeyOf "c1" 0, StateVal.record ⟨120000, false, 0⟩)],
            [(sessionKeyOf "c1" 0, MarkVal.num 1000)], false, false⟩)
    ∧ TimerState.getElapsedTime
        { startTime := some (2000 - 120000), elapsedTime := 120000,
          isPaused := false, isActive := true } 2000 = 120000
    ∧ TimerState.getElapsedTime
        { startTime := some (2000 - 120000), elapsedTime := 120000,
          isPaused := false, isActive := true } 2500 = 120000 + 500 :=
  ⟨(restore_within_window
      ⟨[(storageKeyOf "c1" 0, StateVal.record ⟨120000, false, 0⟩)],
       [(sessionKeyOf "c1" 0, MarkVal.num 1000)], false, false⟩
      "c1" 0 2000 1000 ⟨120000, false, 0⟩ rfl rfl rfl (by decide) (by decide)).1,
   (restore_within_window
      ⟨[(storageKeyOf "c1" 0, StateVal.record ⟨120000, false, 0⟩)],
       [(sessionKeyOf "c1" 0, MarkVal.num 1000)], false, false⟩
      "c1" 0 2000 1000 ⟨120000, false, 0⟩ rfl rfl rfl (by decide) (by decide)).2 2000,
   (restore_within_window
      ⟨[(storageKeyOf "c1" 0, StateVal.record ⟨120000, false, 0⟩)],
       [(sessionKeyOf "c1" 0, MarkVal.num 1000)], false, false⟩
      "c1" 0 2000 1000 ⟨120000, false, 0⟩ rfl rfl rfl (by decide) (by decide)).2 2500⟩

/-- Counterexample for C4 as stated: record `elapsedTime = 5`, marker
`t0 = 4`, restored at `now = 5` (window open, `now - t0 = 1`).  The
reconstruction `startTime = now - E = 0` is falsy for the getter's
`!startTime` guard, so `getElapsedTime` at the construction instant returns
`0`, not the claimed exact `E = 5`. -/
theorem restore_exact_elapsed_cex :
    TimerStateManager.construct "c1" 0
        ⟨[(storageKeyOf "c1" 0, StateVal.record ⟨5, false, 0⟩)],
         [(sessionKeyOf "c1" 0, MarkVal.num 4)], false, false⟩ 5 =
      .ok ({ candidateId := "c1", questionIndex := 0,
             state := { startTime := some 0, elapsedTime := 5,
                        isPaused := false, isActive := true },
             autoSaveOn := false },
           ⟨[(storageKeyOf "c1" 0, StateVal.record ⟨5, false, 0⟩)],
            [(sessionKeyOf "c1" 0, MarkVal.num 4)], false, false⟩)
    ∧ TimerState.getElapsedTime
        { startTime := some 0, elapsedTime := 5, isPaused := false, isActive := true } 5 = 0
    ∧ (0 : Int) ≠ 5 := by
  refine ⟨rfl, rfl, by decide⟩

theorem getFormattedTime_fresh (now : Int) :
    TimerState.getFormattedTime
      { startTime := some now, elapsedTime := 0, isPaused := false, isActive := true } now
      = "0:00" := by
  unfold TimerState.getFormattedTime
  rw [getElapsedTime_fresh]
  rfl

/-- C10: after `cleanupTimer` has stopped and removed the registered manager
for a key, a subsequent `getTimer` for the same key never returns the stopped
instance: it constructs, auto-save-starts and registers a brand-new manager
whose session is fresh (`startTime = now`, elapsed `0`) because `stop()`
removed both persisted storage entries, so nothing is restored; the implicit
`getTimer` inside `TimerUtils.getFormattedTime` accordingly formats `"0:00"`,
and the new manager's state differs from the stopped one's. -/
theorem cleanup_then_getTimer_fresh (g : GlobalTimerManager) (st : Storage)
    (cid : String) (q : Nat) (m : TimerStateManager) (now : Int)
    (hw : st.writeThrows = false)
    (hreg : lookupKey g.activeTimers (regKey cid q) = some m)
    (hcid : m.candidateId = cid) (hq : m.questionIndex = q) :
    GlobalTimerManager.getTimer
        (GlobalTimerManager.cleanupTimer g st cid q).1
        (GlobalTimerManager.cleanupTimer g st cid q).2 cid q now =
      .ok ({ candidateId := cid, questionIndex := q,
             state := { startTime := some now, elapsedTime := 0,
                        isPaused := false, isActive := true },
             autoSaveOn := true },
           ⟨setKey (eraseKey g.activeTimers (regKey cid q)) (regKey cid q)
              { candidateId := cid, questionIndex := q,
                state := { startTime := some now, elapsedTime := 0,
                           isPaused := false, isActive := true },
                autoSaveOn := true }⟩,
           { st with
             stateRecs := eraseKey st.stateRecs (storageKeyOf cid q),
             sessionMarks := setKey (eraseKey st.sessionMarks (sessionKeyOf cid q))
                               (sessionKeyOf cid q) (MarkVal.num now) })
    ∧ lookupKey
        (setKey (eraseKey g.activeTimers (regKey cid q)) (regKey cid q)
          { candidateId := cid, questionIndex := q,
            state := { startTime := some now, elapsedTime := 0,
                       isPaused := false, isActive := true },
            autoSaveOn := true }) (regKey cid q)
        = some { candidateId := cid, questionIndex := q,
                 state := { startTime := some now, elapsedTime := 0,
                            isPaused := false, isActive := true },
                 autoSaveOn := true }
    ∧ TimerState.getElapsedTime
        { startTime := some now, elapsedTime := 0, isPaused := false, isActive := true } now = 0
    ∧ TimerUtils.getFormattedTime
        (GlobalTimerManager.cleanupTimer g st cid q).1
        (GlobalTimerManager.cleanupTimer g st cid q).2 cid q now =
      .ok ("0:00",
           ⟨setKey (eraseKey g.activeTimers (regKey cid q)) (regKey cid q)
              { candidateId := cid, questionIndex := q,
                state := { startTime := some now, elapsedTime := 0,
                           isPaused := false, isActive := true },
                autoSaveOn := true }⟩,
           { st with
             stateRecs := eraseKey st.stateRecs (storageKeyOf cid q),
             sessionMarks := setKey (eraseKey st.sessionMarks (sessionKeyOf cid q))
                               (sessionKeyOf cid q) (MarkVal.num now) })
    ∧ ({ startTime := some now, elapsedTime := 0, isPaused := false,
         isActive := true } : TimerState) ≠ ((m.stop st).1).state := by
  have hstop2 : (m.stop st).2
      = { st with stateRecs := eraseKey st.stateRecs (storageKeyOf cid q),
                  sessionMarks := eraseKey st.sessionMarks (sessionKeyOf cid q) } := by
    simp [TimerStateManager.stop, TimerStateManager.storageKey,
          TimerStateManager.sessionKey, hcid, hq]
  have hclean : GlobalTimerManager.cleanupTimer g st cid q
      = (⟨eraseKey g.activeTimers (regKey cid q)⟩, (m.stop st).2) := by
    simp [GlobalTimerManager.cleanupTimer, hreg]
  have hblocked : freshRestoreBlocked
      { st with stateRecs := eraseKey st.stateRecs (storageKeyOf cid q),
                sessionMarks := eraseKey st.sessionMarks (sessionKeyOf cid q) }
      cid q now := Or.inl (lookupKey_eraseKey_self _ _)
  have hcon := construct_fresh_eq
      { st with stateRecs := eraseKey st.stateRecs (storageKeyOf cid q),
                sessionMarks := eraseKey st.sessionMarks (sessionKeyOf cid q) }
      cid q now (by simpa using hw) hblocked
  have hget : GlobalTimerManager.getTimer
      (GlobalTimerManager.cleanupTimer g st cid q).1
      (GlobalTimerManager.cleanupTimer g st cid q).2 cid q now =
      .ok ({ candidateId := cid, questionIndex := q,
             state := { startTime := some now, elapsedTime := 0,
                        isPaused := false, isActive := true },
             autoSaveOn := true },
           ⟨setKey (eraseKey g.activeTimers (regKey cid q)) (regKey cid q)
              { candidateId := cid, questionIndex := q,
                state := { startTime := some now, elapsedTime := 0,
                           isPaused := false, isActive := true },
                autoSaveOn := true }⟩,
           { st with
             stateRecs := eraseKey st.stateRecs (storageKeyOf cid q),
             sessionMarks := setKey (eraseKey st.sessionMarks (sessionKeyOf cid q))
                               (sessionKeyOf cid q) (MarkVal.num now) }) := by
    rw [hclean, hstop2]
    unfold GlobalTimerManager.getTimer
    rw [lookupKey_eraseKey_self]
    rw [hcon]
    simp [TimerStateManager.startAutoSave]
  have hutils : TimerUtils.getFormattedTime
      (GlobalTimerManager.cleanupTimer g st cid q).1
      (GlobalTimerManager.cleanupTimer g st cid q).2 cid q now =
      .ok ("0:00",
           ⟨setKey (eraseKey g.activeTimers (regKey cid q)) (regKey cid q)
              { candidateId := cid, questionIndex := q,
                state := { startTime := some now, elapsedTime := 0,
                           isPaused := false, isActive := true },
                autoSaveOn := true }⟩,
           { st with
             stateRecs := eraseKey st.stateRecs (storageKeyOf cid q),
             sessionMarks := setKey (eraseKey st.sessionMarks (sessionKeyOf cid q))
                               (sessionKeyOf cid q) (MarkVal.num now) }) := by
    unfold TimerUtils.getFormattedTime
    rw [hget]
    dsimp only
    rw [getFormattedTime_fresh]
  refine ⟨hget, lookupKey_setKey_self _ _ _, getElapsedTime_fresh now, hutils, ?_⟩
  intro hEq
  have : (({ startTime := some now, elapsedTime := 0, isPaused := false,
             isActive := true } : TimerState)).isActive
      = (((m.stop st).1).state).isActive := by
    rw [hEq]
  simp [TimerStateManager.stop] at this

/-- Witness for C10: one registered running manager for key `c1_0`, empty
storage; after cleanup, `getTimer` at `now = 7` yields a fresh registered
auto-saving manager and `TimerUtils.getFormattedTime` yields `"0:00"`. -/
theorem cleanup_then_getTimer_fresh_witness :
    GlobalTimerManager.getTimer
        (GlobalTimerManager.cleanupTimer
          ⟨[(regKey "c1" 0, (⟨"c1", 0, ⟨some 3, 0, false, true⟩, true⟩ : TimerStateManager))]⟩
          ⟨[], [], false, false⟩ "c1" 0).1
        (GlobalTimerManager.cleanupTimer
          ⟨[(regKey "c1" 0, (⟨"c1", 0, ⟨some 3, 0, false, true⟩, true⟩ : TimerStateManager))]⟩
          ⟨[], [], false, false⟩ "c1" 0).2 "c1" 0 7 =
      .ok ({ candidateId := "c1", questionIndex := 0,
             state := { startTime := some 7, elapsedTime := 0,
                        isPaused := false, isActive := true },
             autoSaveOn := true },
           ⟨setKey (eraseKey [(regKey "c1" 0, (⟨"c1", 0, ⟨some 3, 0, false, true⟩, true⟩ : TimerStateManager))]
                      (regKey "c1" 0)) (regKey "c1" 0)
              { candidateId := "c1", questionIndex := 0,
                state := { startTime := some 7, elapsedTime := 0,
                           isPaused := false, isActive := true },
                autoSaveOn := true }⟩,
           ⟨eraseKey [] (storageKeyOf "c1" 0),
            setKey (eraseKey [] (sessionKeyOf "c1" 0)) (sessionKeyOf "c1" 0) (MarkVal.num 7),
            false, false⟩)
    ∧ lookupKey
        (setKey (eraseKey [(regKey "c1" 0, (⟨"c1", 0, ⟨some 3, 0, false, true⟩, true⟩ : TimerStateManager))]
                   (regKey "c1" 0)) (regKey "c1" 0)
          { candidateId := "c1", questionIndex := 0,
            state := { startTime := some 7, elapsedTime := 0,
                       isPaused := false, isActive := true },
            autoSaveOn := true }) (regKey "c1" 0)
        = some { candidateId := "c1", questionIndex := 0,
                 state := { startTime := some 7, elapsedTime := 0,
                            isPaused := false, isActive := true },
                 autoSaveOn := true }
    ∧ TimerState.getElapsedTime
        { startTime := some 7, elapsedTime := 0, isPaused := false, isActive := true } 7 = 0
    ∧ TimerUtils.getFormattedTime
        (GlobalTimerManager.cleanupTimer
          ⟨[(regKey "c1" 0, (⟨"c1", 0, ⟨some 3, 0, false, true⟩, true⟩ : TimerStateManager))]⟩
          ⟨[], [], false, false⟩ "c1" 0).1
        (GlobalTimerManager.cleanupTimer
          ⟨[(regKey "c1" 0, (⟨"c1", 0, ⟨some 3, 0, false, true⟩, true⟩ : TimerStateManager))]⟩
          ⟨[], [], false, false⟩ "c1" 0).2 "c1" 0 7 =
      .ok ("0:00",
           ⟨setKey (eraseKey [(regKey "c1" 0, (⟨"c1", 0, ⟨some 3, 0, false, true⟩, true⟩ : TimerStateManager))]
                      (regKey "c1" 0)) (regKey "c1" 0)
              { candidateId := "c1", questionIndex := 0,
                state := { startTime := some 7, elapsedTime := 0,
                           isPaused := false, isActive := true },
                autoSaveOn := true }⟩,
           ⟨eraseKey [] (storageKeyOf "c1" 0),
            setKey (eraseKey [] (sessionKeyOf "c1" 0)) (sessionKeyOf "c1" 0) (MarkVal.num 7),
            false, false⟩)
    ∧ ({ startTime := some 7, elapsedTime := 0, isPaused := false,
         isActive := true } : TimerState)
        ≠ ((TimerStateManager.stop ⟨"c1", 0, ⟨some 3, 0, false, true⟩, true⟩
             ⟨[], [], false, false⟩).1).state :=
  cleanup_then_getTimer_fresh
    (⟨[(regKey "c1" 0, (⟨"c1", 0, ⟨some 3, 0, false, true⟩, true⟩ : TimerStateManager))]⟩ : GlobalTimerManager)
    (⟨[], [], false, false⟩ : Storage) "c1" 0
    (⟨"c1", 0, ⟨some 3, 0, false, true⟩, true⟩ : TimerStateManager) 7
    rfl rfl rfl rfl
